import Mathlib

/-!
Verification of the CGLS catalogue-and-download demonstration
(`search_and_download/CGLS_catalogue_and_download_demo.py`).

The demo script is glue over an external catalogue client library: it
configures a catalogue session, searches a collection over a date range,
materializes the generator of results into a list, downloads the products
into the working directory, and lists the directory named after a product
identifier.  The client library is not part of the repository, so the
three catalogue operations (`get_collections`, `get_products`,
`download_products`) are modelled here from the specification of the
interaction contract, while the demo's literal arguments (collection
identifier, dates, destination, checked directory name) are transcribed
from the source.

Dates are encoded as natural numbers in `yyyymmdd` form, which preserves
the ordering of calendar dates used by the temporal filter.
-/

/-- A data asset of a product: a retrieval location (URI) and a byte
length.  In the demo these are read as `product.data[0].href` and
`product.data[0].length`. -/
structure Asset where
  href : String
  length : Nat
deriving DecidableEq

/-- A product record: identifier, data assets, and the temporal coverage
used by the search filter (encoded `yyyymmdd`). -/
structure Product where
  id : String
  data : List Asset
  beginDate : Nat
  endDate : Nat
deriving DecidableEq

/-- A collection: identifier and descriptive title. -/
structure Collection where
  id : String
  title : String
deriving DecidableEq

/-- A search filter: required collection identifier, optional start and
end dates (encoded `yyyymmdd`). -/
structure SearchFilter where
  collection : String
  startDate : Option Nat
  endDate : Option Nat
deriving DecidableEq

/-- Error kinds surfaced by the catalogue session. -/
inductive CatalogueError where
  | InvalidFilter
  | ServiceUnavailable
  | ProtocolError
deriving DecidableEq

/-- Modelled from the spec: the remote service state visible to a
catalogue session at query time — the exposed collections and, for each
collection identifier, the products it holds (stored as pairs of a
collection identifier and a product).  The client library holding this
state is an external collaborator, absent from the repository. -/
structure CatalogueState where
  collections : List Collection
  entries : List (String × Product)
deriving DecidableEq

/-- Modelled from the spec: the invariants the service guarantees on its
state — product identifiers are unique within any one collection (hence
within a single search result set), and every product has one or more
data assets. -/
def CatalogueState.Wellformed (cat : CatalogueState) : Prop :=
  (∀ cid ∈ cat.entries.map (fun e => e.1),
      (((cat.entries.filter (fun e => e.1 == cid)).map (fun e => e.2.id))).Nodup) ∧
  (∀ e ∈ cat.entries, e.2.data ≠ [])

instance (cat : CatalogueState) : Decidable cat.Wellformed := by
  unfold CatalogueState.Wellformed
  infer_instance

/-- A product's temporal coverage intersects the (optional) query range:
the coverage begins no later than the range's end and ends no earlier
than the range's start; an absent bound does not constrain. -/
def coversRange (p : Product) (s e : Option Nat) : Bool :=
  (match e with
   | none => true
   | some ub => decide (p.beginDate ≤ ub)) &&
  (match s with
   | none => true
   | some lb => decide (lb ≤ p.endDate))

/-- Modelled from the spec: `search_products` — returns the products of
the filter's collection whose coverage intersects the date range, or
signals `InvalidFilter` when the collection identifier is unknown to the
service.  (In the source this is `catalogue.get_products`, implemented by
the external client library.) -/
def search_products (cat : CatalogueState) (f : SearchFilter) :
    Except CatalogueError (List Product) :=
  if cat.collections.any (fun c => c.id == f.collection) then
    Except.ok ((cat.entries.filter
        (fun e => e.1 == f.collection && coversRange e.2 f.startDate f.endDate)).map
      (fun e => e.2))
  else
    Except.error CatalogueError.InvalidFilter

/-- A generator of products, as returned by `get_products` in the source:
a single-pass cursor over the remaining elements, advanced by `next`. -/
structure ProductGenerator where
  remaining : List Product
deriving DecidableEq

/-- Advance the generator: yield the next product and the advanced
generator, or `none` when exhausted. -/
def ProductGenerator.next (g : ProductGenerator) :
    Option (Product × ProductGenerator) :=
  match g.remaining with
  | [] => none
  | p :: rest => some (p, ⟨rest⟩)

/-- The elements a generator still yields, gathered by repeatedly taking
the head `next` would produce, together with the exhausted generator left
behind at the end of the traversal. -/
def consumeFrom : List Product → List Product × ProductGenerator
  | [] => ([], ⟨[]⟩)
  | p :: rest => ((consumeFrom rest).1.cons p, (consumeFrom rest).2)

/-- Fully consume a generator by repeated `next`, as `list(...)` does in
the source: the elements yielded, in order, together with the exhausted
generator left behind. -/
def ProductGenerator.consume (g : ProductGenerator) :
    List Product × ProductGenerator :=
  consumeFrom g.remaining

/-- Modelled from the spec: `search_products` exposed as the generator the
source's `get_products` returns. -/
def search_products_gen (cat : CatalogueState) (f : SearchFilter) :
    Except CatalogueError ProductGenerator :=
  (search_products cat f).map (fun ps => ⟨ps⟩)

/-- The destination directory's contents: one entry per subdirectory,
naming the subdirectory and listing the files within it. -/
abbrev Filesystem := List (String × List String)

/-- The directory `download_products` materializes for one product: named
by the product identifier and holding one file per asset. -/
def productDir (p : Product) : String × List String :=
  (p.id, p.data.map (fun a => a.href))

/-- Modelled from the spec: the per-product download loop of
`download_products`, with `fails` the oracle saying which products the
remote transfer fails on.  Each successful product's assets are written
under `destination/<product identifier>/`; the failed products are
collected.  Returns the destination contents and the failed products. -/
def download_products (fails : Product → Bool) :
    List Product → Filesystem → Filesystem × List Product
  | [], dest => (dest, [])
  | p :: rest, dest =>
    if fails p then
      let r := download_products fails rest dest
      (r.1, p :: r.2)
    else
      download_products fails rest (dest ++ [productDir p])

/-- Outcome of a `download_products` call: normal termination, or a
`PartialDownloadFailure` listing which products failed while the
destination keeps the completed downloads. -/
inductive DownloadOutcome where
  | ok (dest : Filesystem)
  | PartialDownloadFailure (failed : List Product) (dest : Filesystem)
deriving DecidableEq

/-- Modelled from the spec: `download_products` as invoked by the source —
it signals `PartialDownloadFailure`, listing the failed products, exactly
when at least one product failed; completed products stay on disk. -/
def download_run (fails : Product → Bool) (products : List Product)
    (dest : Filesystem) : DownloadOutcome :=
  let r := download_products fails products dest
  match r.2 with
  | [] => DownloadOutcome.ok r.1
  | _ :: _ => DownloadOutcome.PartialDownloadFailure r.2 r.1

/-- The collection identifier the demo searches, from the source. -/
def demoCollectionId : String := "clms_global_ba_300m_v3_daily_netcdf"

/-- The filter of the demo's first search (the one whose results are
displayed in a table), transcribed from the source:
`get_products("clms_global_ba_300m_v3_daily_netcdf", start=dt.date(2023, 9, 1), end=dt.date(2023, 9, 3))`. -/
def demoDisplayFilter : SearchFilter :=
  ⟨demoCollectionId, some 20230901, some 20230903⟩

/-- The filter of the demo's second search (the one materialized with
`list(...)` and passed to `download_products`), transcribed from the
source; it repeats the same literal arguments. -/
def demoDownloadFilter : SearchFilter :=
  ⟨demoCollectionId, some 20230901, some 20230903⟩

/-- The product identifier whose directory the demo finally lists with
`os.listdir`, from the source. -/
def demoCheckedId : String := "c_gls_BA300-NRT_202309010000_GLOBE_S3_V3.1.1"

/-- Modelled from the spec: the daily burnt-area product for 2023-09-01,
the product the demo's final `os.listdir` check names. -/
def demoProductSep01 : Product :=
  ⟨demoCheckedId,
   [⟨"https://globalland.vito.be/download/c_gls_BA300-NRT_202309010000_GLOBE_S3_V3.1.1/c_gls_BA300-NRT_202309010000_GLOBE_S3_V3.1.1.nc",
     154140672⟩],
   20230901, 20230901⟩

/-- Modelled from the spec: the daily burnt-area product for 2023-09-02. -/
def demoProductSep02 : Product :=
  ⟨"c_gls_BA300-NRT_202309020000_GLOBE_S3_V3.1.1",
   [⟨"https://globalland.vito.be/download/c_gls_BA300-NRT_202309020000_GLOBE_S3_V3.1.1/c_gls_BA300-NRT_202309020000_GLOBE_S3_V3.1.1.nc",
     154009600⟩],
   20230902, 20230902⟩

/-- Modelled from the spec: the daily burnt-area product for 2023-09-03. -/
def demoProductSep03 : Product :=
  ⟨"c_gls_BA300-NRT_202309030000_GLOBE_S3_V3.1.1",
   [⟨"https://globalland.vito.be/download/c_gls_BA300-NRT_202309030000_GLOBE_S3_V3.1.1/c_gls_BA300-NRT_202309030000_GLOBE_S3_V3.1.1.nc",
     153845760⟩],
   20230903, 20230903⟩

/-- Modelled from the spec: the remote service state at the time of the
demo — the burnt-area collection (the only one available when the demo
was written) holding the daily products covering 2023-09-01 through
2023-09-03 named by the literal example. -/
def demoCatalogue : CatalogueState :=
  ⟨[⟨demoCollectionId, "Burnt Area 300m, global, daily, V3.1.1, netCDF"⟩],
   [(demoCollectionId, demoProductSep01),
    (demoCollectionId, demoProductSep02),
    (demoCollectionId, demoProductSep03)]⟩

/-- The list the source builds with `list(catalogue.get_products(...))`
before passing it to `download_products`: the materialized result of the
demo's second search (empty if the search failed). -/
def demoProductList : List Product :=
  match search_products_gen demoCatalogue demoDownloadFilter with
  | Except.ok g => g.consume.1
  | Except.error _ => []

/-- The destination contents after the source's
`catalogue.download_products(product_list, './')` call, starting from an
empty working directory; the demo's downloads all succeed. -/
def demoDownloadedDest : Filesystem :=
  (download_products (fun _ => false) demoProductList []).1

/-! ### Helper lemmas -/

/-- Fully consuming a generator yields exactly its remaining elements, in
order, and leaves the exhausted generator behind. -/
theorem ProductGenerator.consume_mk (l : List Product) :
    ProductGenerator.consume ⟨l⟩ = (l, ⟨[]⟩) := by
  induction l with
  | nil => rfl
  | cons p rest ih =>
    simp only [ProductGenerator.consume, consumeFrom] at ih ⊢
    simp [ih]

/-- Closed form of the download loop: the destination gains one directory
per successful product, in order, and the failed products are collected
in order. -/
theorem download_products_eq (fails : Product → Bool) (products : List Product)
    (dest : Filesystem) :
    download_products fails products dest =
      (dest ++ (products.filter (fun p => !fails p)).map productDir,
       products.filter fails) := by
  induction products generalizing dest with
  | nil => simp [download_products]
  | cons p rest ih =>
    by_cases hp : fails p = true
    · simp [download_products, hp, ih, List.filter_cons]
    · simp only [Bool.not_eq_true] at hp
      simp [download_products, hp, ih, List.filter_cons]

/-- Among products with pairwise-distinct identifiers, filtering the
materialized directories by one member's identifier finds exactly that
member's directory. -/
theorem filter_productDir_eq_single (ps : List Product) (p : Product)
    (hnd : (ps.map Product.id).Nodup) (hp : p ∈ ps) :
    (ps.map productDir).filter (fun d => d.1 == p.id) = [productDir p] := by
  induction ps with
  | nil => cases hp
  | cons q rest ih =>
    simp only [List.map_cons, List.nodup_cons, List.mem_map] at hnd
    rcases List.mem_cons.mp hp with hq | hmem
    · subst hq
      simp only [List.map_cons, List.filter_cons, productDir, beq_self_eq_true,
        if_pos, List.cons.injEq, true_and]
      rw [List.filter_eq_nil_iff]
      intro d hd
      simp only [List.mem_map] at hd
      obtain ⟨r, hr, rfl⟩ := hd
      simp only [productDir, beq_iff_eq]
      intro hid
      exact hnd.1 ⟨r, hr, hid⟩
    · have hne : (productDir q).1 ≠ p.id := by
        simp only [productDir]
        intro hid
        exact hnd.1 ⟨p, hmem, hid.symm⟩
      simp only [List.map_cons, List.filter_cons]
      rw [if_neg (by simpa using hne)]
      exact ih hnd.2 hmem

/-- A successful search returns exactly the matching entries of the
filter's collection. -/
theorem search_products_ok_iff (cat : CatalogueState) (f : SearchFilter)
    (ps : List Product) (hok : search_products cat f = Except.ok ps) :
    ps = (cat.entries.filter
        (fun e => e.1 == f.collection && coversRange e.2 f.startDate f.endDate)).map
      (fun e => e.2) := by
  unfold search_products at hok
  split at hok
  · exact (Except.ok.injEq _ _).mp hok |>.symm
  · cases hok

/-- Under the service invariants, the identifiers of any successful
search result are pairwise distinct. -/
theorem search_result_ids_nodup_aux (cat : CatalogueState) (f : SearchFilter)
    (ps : List Product) (hwf : cat.Wellformed)
    (hok : search_products cat f = Except.ok ps) :
    (ps.map Product.id).Nodup := by
  have hps := search_products_ok_iff cat f ps hok
  subst hps
  rw [List.map_map]
  by_cases hmem : f.collection ∈ cat.entries.map (fun e => e.1)
  · have hsub : (cat.entries.filter
        (fun e => e.1 == f.collection && coversRange e.2 f.startDate f.endDate)).Sublist
        (cat.entries.filter (fun e => e.1 == f.collection)) := by
      refine List.monotone_filter_right _ (fun a h => ?_)
      exact (Bool.and_eq_true _ _ |>.mp h).1
    have hnd := hwf.1 f.collection hmem
    have hcomp : (Product.id ∘ fun e : String × Product => e.2) =
        fun e : String × Product => e.2.id := rfl
    rw [hcomp]
    exact List.Nodup.sublist (hsub.map _) hnd
  · have hnil : cat.entries.filter
        (fun e => e.1 == f.collection && coversRange e.2 f.startDate f.endDate) = [] := by
      rw [List.filter_eq_nil_iff]
      intro e he hcond
      rcases Bool.and_eq_true _ _ |>.mp hcond with ⟨h1, _⟩
      exact hmem (List.mem_map.mpr ⟨e, he, beq_iff_eq.mp h1⟩)
    simp [hnil]

/-! ### Claim theorems -/

/-- C1: For the literal demo input (collection
`clms_global_ba_300m_v3_daily_netcdf`, 2023-09-01 through 2023-09-03),
the search result includes a product identified
`c_gls_BA300-NRT_202309010000_GLOBE_S3_V3.1.1`, and after
`download_products` on that result set the destination contains a
directory of that exact name holding at least one file. -/
theorem demo_literal_example :
    demoCheckedId ∈ demoProductList.map Product.id ∧
    (demoDownloadedDest.filter (fun d => d.1 == demoCheckedId)).length = 1 ∧
    demoDownloadedDest.any (fun d => d.1 == demoCheckedId && !d.2.isEmpty) = true := by
  decide

/-- C2: every product of a successful search over the date range
`[lb, ub]` has a temporal coverage intersecting that range: it begins no
later than `ub` and ends no earlier than `lb`; no product outside the
range appears. -/
theorem search_products_coverage_intersects (cat : CatalogueState)
    (f : SearchFilter) (ps : List Product) (lb ub : Nat) (p : Product)
    (hstart : f.startDate = some lb) (hend : f.endDate = some ub)
    (hok : search_products cat f = Except.ok ps) (hp : p ∈ ps) :
    p.beginDate ≤ ub ∧ lb ≤ p.endDate := by
  have hps := search_products_ok_iff cat f ps hok
  subst hps
  rcases List.mem_map.mp hp with ⟨e, he, rfl⟩
  rcases List.mem_filter.mp he with ⟨-, hcond⟩
  rcases Bool.and_eq_true _ _ |>.mp hcond with ⟨-, hcov⟩
  unfold coversRange at hcov
  rw [hstart, hend] at hcov
  rcases Bool.and_eq_true _ _ |>.mp hcov with ⟨h1, h2⟩
  exact ⟨of_decide_eq_true h1, of_decide_eq_true h2⟩

/-- Witness for C2 at the demo's literal search. -/
theorem search_products_coverage_intersects_witness :
    search_products demoCatalogue demoDisplayFilter =
      Except.ok [demoProductSep01, demoProductSep02, demoProductSep03] ∧
    (demoProductSep01.beginDate ≤ 20230903 ∧ 20230901 ≤ demoProductSep01.endDate) :=
  ⟨rfl,
   search_products_coverage_intersects demoCatalogue demoDisplayFilter
     [demoProductSep01, demoProductSep02, demoProductSep03]
     20230901 20230903 demoProductSep01 rfl rfl rfl (by decide)⟩

/-- C3: downloading a search's result set into a destination that holds
no directory named after any of its products, with every transfer
succeeding, creates exactly one directory named after each product's
identifier, holding every one of that product's assets. -/
theorem download_products_creates_product_dirs (cat : CatalogueState)
    (f : SearchFilter) (ps : List Product) (fails : Product → Bool)
    (dest : Filesystem) (p : Product)
    (hwf : cat.Wellformed) (hok : search_products cat f = Except.ok ps)
    (hsucc : ∀ q ∈ ps, fails q = false)
    (hfresh : ∀ q ∈ ps, ∀ d ∈ dest, d.1 ≠ q.id)
    (hp : p ∈ ps) :
    ((download_products fails ps dest).1.filter (fun d => d.1 == p.id)) =
      [productDir p] := by
  rw [download_products_eq]
  have hfilter : ps.filter (fun q => !fails q) = ps := by
    rw [List.filter_eq_self]
    intro a ha
    simp [hsucc a ha]
  rw [hfilter, List.filter_append]
  have hdest : dest.filter (fun d => d.1 == p.id) = [] := by
    rw [List.filter_eq_nil_iff]
    intro d hd
    simpa using hfresh p hp d hd
  rw [hdest, List.nil_append]
  exact filter_productDir_eq_single ps p
    (search_result_ids_nodup_aux cat f ps hwf hok) hp

/-- Witness for C3 at the demo's download into an empty destination. -/
theorem download_products_creates_product_dirs_witness :
    ((download_products (fun _ => false)
          [demoProductSep01, demoProductSep02, demoProductSep03] []).1.filter
        (fun d => d.1 == demoProductSep01.id)) = [productDir demoProductSep01] :=
  download_products_creates_product_dirs demoCatalogue demoDownloadFilter
    [demoProductSep01, demoProductSep02, demoProductSep03] (fun _ => false) []
    demoProductSep01 (by decide) rfl (fun q _ => rfl)
    (fun q _ d hd => absurd hd (List.not_mem_nil d)) (by decide)

/-- C4: a search naming a collection identifier unknown to the service
signals `InvalidFilter`; the operation's outcome is that error alone (the
generator form errors as well), so no element of a result sequence is
produced. -/
theorem search_unknown_collection_invalid_filter (cat : CatalogueState)
    (f : SearchFilter) (h : ∀ c ∈ cat.collections, c.id ≠ f.collection) :
    search_products cat f = Except.error CatalogueError.InvalidFilter ∧
    search_products_gen cat f = Except.error CatalogueError.InvalidFilter := by
  have hcond : ¬(cat.collections.any (fun c => c.id == f.collection) = true) := by
    simp only [List.any_eq_true, beq_iff_eq, not_exists]
    rintro c ⟨hc, hceq⟩
    exact h c hc hceq
  have heq : search_products cat f = Except.error CatalogueError.InvalidFilter := by
    unfold search_products
    rw [if_neg hcond]
  refine ⟨heq, ?_⟩
  unfold search_products_gen
  rw [heq]
  rfl

/-- Witness for C4 at a collection identifier absent from the demo
catalogue. -/
theorem search_unknown_collection_invalid_filter_witness :
    search_products demoCatalogue ⟨"no_such_collection", none, none⟩ =
      Except.error CatalogueError.InvalidFilter ∧
    search_products_gen demoCatalogue ⟨"no_such_collection", none, none⟩ =
      Except.error CatalogueError.InvalidFilter :=
  search_unknown_collection_invalid_filter demoCatalogue
    ⟨"no_such_collection", none, none⟩ (by decide)

/-- C5: `download_products` on an empty product sequence terminates
normally, signals no error, creates no directories, and leaves the
destination's contents unchanged. -/
theorem download_products_empty_noop (fails : Product → Bool)
    (dest : Filesystem) :
    download_products fails [] dest = (dest, []) ∧
    download_run fails [] dest = DownloadOutcome.ok dest :=
  ⟨rfl, rfl⟩

/-- C6: when at least one product's transfer fails, `download_products`
signals `PartialDownloadFailure` listing exactly the products that
failed, and every product whose download completed remains on disk — the
destination keeps its prior contents plus a directory for each completed
product, with no rollback. -/
theorem download_products_partial_failure (fails : Product → Bool)
    (products : List Product) (dest : Filesystem)
    (hfail : ∃ p ∈ products, fails p = true) :
    download_run fails products dest =
      DownloadOutcome.PartialDownloadFailure (products.filter fails)
        (dest ++ (products.filter (fun q => !fails q)).map productDir) ∧
    ∀ p ∈ products, fails p = false →
      productDir p ∈ dest ++ (products.filter (fun q => !fails q)).map productDir := by
  constructor
  · obtain ⟨q, hq, hfq⟩ := hfail
    have hne : products.filter fails ≠ [] := by
      intro hnil
      have hmem := List.mem_filter.mpr ⟨hq, hfq⟩
      rw [hnil] at hmem
      cases hmem
    simp only [download_run, download_products_eq]
    cases hflt : products.filter fails with
    | nil => exact absurd hflt hne
    | cons a as => simp [hflt]
  · intro p hp hps
    apply List.mem_append_right
    exact List.mem_map.mpr ⟨p, List.mem_filter.mpr ⟨hp, by simp [hps]⟩, rfl⟩

/-- Witness for C6: the September 2 product fails, the other two
complete and stay on disk. -/
theorem download_products_partial_failure_witness :
    download_run (fun p => p.id == "c_gls_BA300-NRT_202309020000_GLOBE_S3_V3.1.1")
        [demoProductSep01, demoProductSep02, demoProductSep03] [] =
      DownloadOutcome.PartialDownloadFailure [demoProductSep02]
        [productDir demoProductSep01, productDir demoProductSep03] := by
  have h := download_products_partial_failure
    (fun p => p.id == "c_gls_BA300-NRT_202309020000_GLOBE_S3_V3.1.1")
    [demoProductSep01, demoProductSep02, demoProductSep03] []
    ⟨demoProductSep02, by decide, by decide⟩
  exact h.1.trans (by decide)

/-- C7: the sequence behind a successful search is single-pass and
finite: fully consuming the generator (a terminating traversal, since
`consume` is total) yields the search's result list exactly once, the
exhausted generator yields nothing further, and a second traversal
yields the empty list — the sequence cannot be traversed again without
re-invoking the search. -/
theorem search_generator_single_pass_finite (cat : CatalogueState)
    (f : SearchFilter) (ps : List Product) (g : ProductGenerator)
    (hok : search_products cat f = Except.ok ps)
    (hg : search_products_gen cat f = Except.ok g) :
    g.consume = (ps, (⟨[]⟩ : ProductGenerator)) ∧
    g.consume.2.next = none ∧
    g.consume.2.consume = ([], (⟨[]⟩ : ProductGenerator)) := by
  unfold search_products_gen at hg
  rw [hok] at hg
  simp only [Except.map] at hg
  cases hg
  refine ⟨ProductGenerator.consume_mk ps, ?_, ?_⟩
  · rw [ProductGenerator.consume_mk ps]
    rfl
  · rw [ProductGenerator.consume_mk ps]
    rfl

/-- Witness for C7 at the demo's search. -/
theorem search_generator_single_pass_finite_witness :
    (⟨[demoProductSep01, demoProductSep02, demoProductSep03]⟩ :
        ProductGenerator).consume =
      ([demoProductSep01, demoProductSep02, demoProductSep03],
       (⟨[]⟩ : ProductGenerator)) ∧
    (⟨[demoProductSep01, demoProductSep02, demoProductSep03]⟩ :
        ProductGenerator).consume.2.next = none ∧
    (⟨[demoProductSep01, demoProductSep02, demoProductSep03]⟩ :
        ProductGenerator).consume.2.consume =
      ([], (⟨[]⟩ : ProductGenerator)) :=
  search_generator_single_pass_finite demoCatalogue demoDownloadFilter
    [demoProductSep01, demoProductSep02, demoProductSep03]
    ⟨[demoProductSep01, demoProductSep02, demoProductSep03]⟩ rfl rfl

/-- C8: within the result of one successful search on a wellformed
catalogue, product identifiers are pairwise distinct. -/
theorem search_result_ids_pairwise_distinct (cat : CatalogueState)
    (f : SearchFilter) (ps : List Product) (hwf : cat.Wellformed)
    (hok : search_products cat f = Except.ok ps) :
    List.Pairwise (fun a b => a ≠ b) (ps.map Product.id) :=
  search_result_ids_nodup_aux cat f ps hwf hok

/-- Witness for C8 at the demo's search. -/
theorem search_result_ids_pairwise_distinct_witness :
    List.Pairwise (fun a b => a ≠ b)
      ([demoProductSep01, demoProductSep02, demoProductSep03].map Product.id) :=
  search_result_ids_pairwise_distinct demoCatalogue demoDownloadFilter
    [demoProductSep01, demoProductSep02, demoProductSep03] (by decide) rfl

/-- C9: every product of a successful search on a wellformed catalogue
has a non-empty asset list, so the demo's unconditional
`product.data[0]` access never fails. -/
theorem search_result_first_asset_exists (cat : CatalogueState)
    (f : SearchFilter) (ps : List Product) (p : Product)
    (hwf : cat.Wellformed) (hok : search_products cat f = Except.ok ps)
    (hp : p ∈ ps) :
    p.data ≠ [] ∧ (p.data[0]?).isSome = true := by
  have hps := search_products_ok_iff cat f ps hok
  subst hps
  rcases List.mem_map.mp hp with ⟨e, he, rfl⟩
  have hne := hwf.2 e (List.mem_filter.mp he).1
  refine ⟨hne, ?_⟩
  cases hd : e.2.data with
  | nil => exact absurd hd hne
  | cons a as => simp [hd]

/-- Witness for C9 at the demo's search. -/
theorem search_result_first_asset_exists_witness :
    demoProductSep01.data ≠ [] ∧ (demoProductSep01.data[0]?).isSome = true :=
  search_result_first_asset_exists demoCatalogue demoDownloadFilter
    [demoProductSep01, demoProductSep02, demoProductSep03] demoProductSep01
    (by decide) rfl (by decide)

/-- C10: the demo's two searches (the displayed one and the one feeding
`download_products`) use identical filters, and against any one snapshot
of the service state two searches with equal filters return equal result
sets — so the demo's final filesystem check reflects the displayed
table, provided the service state did not change between the calls. -/
theorem demo_repeated_search_same_results :
    demoDisplayFilter = demoDownloadFilter ∧
    ∀ cat : CatalogueState,
      search_products cat demoDisplayFilter =
        search_products cat demoDownloadFilter :=
  ⟨rfl, fun _ => rfl⟩
